import Mathlib

/-!
Shallow embedding of the promptlayer Python package (version under review)
for checking its natural-language specification.

The embedding models Python values with the inductive type `PyVal`,
fallible Python code with `Except`, and the remote boundary (the helper
functions of `promptlayer/utils.py`, which issue HTTP requests) with the
symbolic record `RemoteCall`: a function of the package is translated into
a Lean function that either raises (returns `.error msg`, the message being
the exact text of the Python exception) or reports which remote helper it
would invoke and with which arguments.
-/

namespace PromptLayer

/-- Model of a Python runtime value, covering the fragment the package
manipulates: None, bool, int, str, list and dict.  Python dicts may have
keys of any type, so entries pair two `PyVal`s. -/
inductive PyVal where
  | vNone : PyVal
  | vBool (b : Bool) : PyVal
  | vInt (n : Int) : PyVal
  | vStr (s : String) : PyVal
  | vList (xs : List PyVal) : PyVal
  | vDict (entries : List (PyVal × PyVal)) : PyVal

/-- Python `isinstance(v, str)`. -/
def PyVal.isStr : PyVal → Bool
  | .vStr _ => true
  | _ => false

/-- Python `isinstance(v, int)`.  In Python `bool` is a subclass of `int`,
so booleans pass this check. -/
def PyVal.isInt : PyVal → Bool
  | .vInt _ => true
  | .vBool _ => true
  | _ => false

/-- Numeric value of an int-like Python value (booleans count as 0 / 1). -/
def PyVal.toInt : PyVal → Int
  | .vInt n => n
  | .vBool b => if b then 1 else 0
  | _ => 0

/-- Python `isinstance(v, dict)` (and also `type(v) == dict`: the model does
not distinguish dict subclasses, the package never defines one). -/
def PyVal.isDict : PyVal → Bool
  | .vDict _ => true
  | _ => false

/-- Model of Python `d[k]` on a dict for a string key `k` (every dict the
package subscripts uses string keys).  A string compares equal only to a
string, so non-string keys are skipped. -/
def dictLookup (entries : List (PyVal × PyVal)) (k : String) : Option PyVal :=
  match entries with
  | [] => none
  | (.vStr s, v0) :: rest => if s = k then some v0 else dictLookup rest k
  | _ :: rest => dictLookup rest k

/-- Python `k in d` on a dict, for a string key. -/
def dictHasKey (entries : List (PyVal × PyVal)) (k : String) : Bool :=
  (dictLookup entries k).isSome

/-- Python `d[k] = v` on a dict for a string key: replaces the value of an
existing key, otherwise appends the new key at the end (insertion order). -/
def dictSet (entries : List (PyVal × PyVal)) (k : String) (v : PyVal) :
    List (PyVal × PyVal) :=
  match entries with
  | [] => [(.vStr k, v)]
  | (.vStr s, v0) :: rest =>
      if s = k then (.vStr s, v) :: rest else (.vStr s, v0) :: dictSet rest k v
  | kv :: rest => kv :: dictSet rest k v

/-- Symbolic record of one invocation of a remote helper from
`promptlayer/utils.py` (the network boundary of the package): the helper
name and the positional arguments passed to it. -/
structure RemoteCall where
  endpoint : String
  callArgs : List PyVal

namespace track

/-- Translation of `track.prompt` (src/promptlayer/track/track.py, lines
6 to 9).  The input validation present in the source is commented out
there, so the function unconditionally forwards to the remote helper
`promptlayer_track_prompt`. -/
def prompt (request_id prompt_template_id version : PyVal) :
    Except String RemoteCall :=
  .ok ⟨"promptlayer_track_prompt", [request_id, prompt_template_id, version]⟩

/-- Translation of `track.metadata` (src/promptlayer/track/track.py, lines
12 to 19): requires a dict whose keys and values are all strings, else
raises; on success forwards to `promptlayer_track_metadata`. -/
def metadata (request_id md : PyVal) : Except String RemoteCall :=
  match md with
  | .vDict entries =>
      if entries.all (fun kv => kv.1.isStr && kv.2.isStr) then
        .ok ⟨"promptlayer_track_metadata", [request_id, md]⟩
      else
        .error "Please provide a dictionary of metadata with key value pair of strings."
  | _ => .error "Please provide a dictionary of metadata."

/-- Translation of `track.score` (src/promptlayer/track/track.py, lines
22 to 27): requires an int (Python counts bools as ints) in the inclusive
range 0 to 100, else raises; on success forwards to
`promptlayer_track_score`. -/
def score (request_id s : PyVal) : Except String RemoteCall :=
  if ¬ s.isInt then .error "Please provide a int score."
  else if s.toInt < 0 ∨ s.toInt > 100 then
    .error "Please provide a score between 0 and 100."
  else .ok ⟨"promptlayer_track_score", [request_id, s]⟩

end track

namespace prompts

/-- Argument passed as `prompt_template` to `publish_prompt`: either an
ordinary Python value, or an instance of the external langchain
`PromptTemplate` class, modelled by the dict its `.dict()` method
returns. -/
inductive TemplateArg where
  | pyval (v : PyVal) : TemplateArg
  | lcTemplate (fields : List (PyVal × PyVal)) : TemplateArg

/-- Translation of `prompts.publish_prompt` (src/promptlayer/prompts/prompts.py,
lines 22 to 30): a plain dict is forwarded as is, a langchain
`PromptTemplate` is forwarded as its `.dict()` form, anything else raises.
The default value of `prompt_template` in the source is `None`, which falls
into the raising branch. -/
def publish_prompt (prompt_name : String) (tags : List String)
    (prompt_template : TemplateArg) : Except String RemoteCall :=
  match prompt_template with
  | .pyval (.vDict d) =>
      .ok ⟨"promptlayer_publish_prompt",
           [.vStr prompt_name, .vDict d, .vList (tags.map .vStr)]⟩
  | .lcTemplate fields =>
      .ok ⟨"promptlayer_publish_prompt",
           [.vStr prompt_name, .vDict fields, .vList (tags.map .vStr)]⟩
  | .pyval _ =>
      .error "Please provide either a JSON prompt template or a langchain prompt template."

/-- Outcome of `get_prompt`: either the template dict was handed to the
external langchain loader `load_prompt_from_config` (constructor `loaded`
records the exact dict handed over), or it was returned raw. -/
inductive GetPromptResult where
  | loaded (config : List (PyVal × PyVal)) : GetPromptResult
  | raw (template : PyVal) : GetPromptResult

/-- Translation of `prompts.get_prompt` (src/promptlayer/prompts/prompts.py,
lines 8 to 19).  `fetched` is the value returned by the remote helper
`promptlayer_get_prompt`.  With `langchain = true` the source defaults a
missing `_type` key of the fetched template dict to `"prompt"` and hands
the dict to `load_prompt_from_config`; with `langchain = false` it returns
the fetched template untouched.  A fetched value without the subscript
structure the source expects raises (the model folds the Python exception
class into the message text; the source applies `in` and index assignment
only to dicts in practice, so non-dict templates under `langchain = true`
are modelled as the raising branch). -/
def get_prompt (fetched : PyVal) (langchain : Bool) :
    Except String GetPromptResult :=
  match fetched with
  | .vDict entries =>
      match dictLookup entries "prompt_template" with
      | none => .error "KeyError: prompt_template"
      | some pt =>
          if langchain then
            match pt with
            | .vDict ptEntries =>
                let ptEntries2 :=
                  if dictHasKey ptEntries "_type" then ptEntries
                  else dictSet ptEntries "_type" (.vStr "prompt")
                .ok (.loaded ptEntries2)
            | _ => .error "TypeError: prompt template is not a dict"
          else .ok (.raw pt)
  | _ => .error "TypeError: fetched prompt is not subscriptable"

end prompts

/-- Model of a raised Python exception crossing a function boundary. -/
inductive PyErr where
  | exception (msg : String) : PyErr
  | keyError (key : String) : PyErr
  | indexError : PyErr

/-- Model of the fixed wire payload one call to
`promptlayer_api_request` / `promptlayer_api_request_async` carries,
matching the positional parameters at the call sites in
src/promptlayer/langchain: function name, provider, args, kwargs, tags,
response, start and end timestamps, usage, metadata, return_pl_id. -/
structure CallEvent where
  function_name : String
  provider_type : String
  eventArgs : List PyVal
  kwargs : List (String × PyVal)
  tags : Option (List String)
  request_response : PyVal
  request_start_time : Int
  request_end_time : Int
  usage : PyVal
  eventMetadata : List (String × PyVal)
  return_pl_id : Bool

/-- The PromptLayer specific fields both framework adapters declare:
`pl_tags`, `pl_project` (optional strings and string lists) and
`return_pl_id` (optional bool, default False). -/
structure PLConfig where
  pl_tags : Option (List String)
  pl_project : Option String
  return_pl_id : Option Bool

/-- Python truthiness of the optional `return_pl_id` flag (`None` is
falsy). -/
def truthyFlag : Option Bool → Bool
  | some b => b
  | none => false

/-- Value stored under the key `project` in the metadata dict the adapters
build: the expression `self.pl_project if self.pl_project else None`, where
an absent or empty (falsy) project yields Python `None`. -/
def projectMetaValue : Option String → PyVal
  | some s => if s = "" then .vNone else .vStr s
  | none => .vNone

/-- The metadata dict literal both adapters pass to the reporter. -/
def adapterMetadata (pl_project : Option String) : List (String × PyVal) :=
  [("project", projectMetaValue pl_project)]

/-- Modelled from the spec: `promptlayer_api_request` and
`promptlayer_api_request_async` live in `promptlayer/utils.py`, which is
not under src/.  Per the spec (sections 2, 4.2 and 6) the reporter treats
any failure of the remote logging call as non-fatal, never raises to its
caller, and returns the request identifier only when the event asked for
it and the call succeeded, otherwise `None`.  The underlying fallible
remote interaction is abstracted as the oracle argument; `reporterRun`
wraps it with that contract. -/
def reporterRun (oracle : CallEvent → Except PyErr (Option String))
    (e : CallEvent) : Option String :=
  match oracle e with
  | .error _ => none
  | .ok r => if e.return_pl_id then r else none

/-- Conversion of an optional request identifier to the Python value the
adapters store (`None` when absent). -/
def plIdVal : Option String → PyVal
  | some s => .vStr s
  | none => .vNone

/-- Model of the in-place update
`generation.generation_info["pl_request_id"] = pl_request_id`, preceded by
the source check replacing a `None` or non-dict `generation_info` with an
empty dict. -/
def stampInfo (info : PyVal) (plId : PyVal) : PyVal :=
  match info with
  | .vDict entries => .vDict (dictSet entries "pl_request_id" plId)
  | _ => .vDict [(.vStr "pl_request_id", plId)]

namespace langchain

/-- One `Generation` of the langchain completion result: the generated
text and the `generation_info` attribute (a dict or `None`). -/
structure Generation where
  text : String
  generation_info : PyVal

/-- The langchain `LLMResult`: one list of generations per input prompt,
plus the `llm_output` dict carrying `token_usage`. -/
structure LLMResult where
  generations : List (List Generation)
  llm_output : PyVal

/-- Python `d["token_usage"]` on the `llm_output` attribute: a `KeyError`
when the key is missing, a `TypeError` when `llm_output` is not a dict. -/
def tokenUsage (llm_output : PyVal) : Except PyErr PyVal :=
  match llm_output with
  | .vDict entries =>
      match dictLookup entries "token_usage" with
      | some v => .ok v
      | none => .error (.keyError "token_usage")
  | _ => .error (.exception "TypeError: llm_output is not subscriptable")

/-- The call event `PromptLayerOpenAI._generate` builds for one prompt
(src/promptlayer/langchain/llms/promptlayer_openai.py, lines 49 to 61):
args is the singleton list holding the prompt, kwargs is
`self._identifying_params`, the response is the dict with the generated
text under the key `text`. -/
def mkLLMEvent (fname : String) (cfg : PLConfig)
    (identifying_params : List (String × PyVal)) (t0 t1 : Int)
    (usage : PyVal) (p : String) (text : String) : CallEvent where
  function_name := fname
  provider_type := "langchain"
  eventArgs := [.vStr p]
  kwargs := identifying_params
  tags := cfg.pl_tags
  request_response := .vDict [(.vStr "text", .vStr text)]
  request_start_time := t0
  request_end_time := t1
  usage := usage
  eventMetadata := adapterMetadata cfg.pl_project
  return_pl_id := truthyFlag cfg.return_pl_id

/-- The loop body of `PromptLayerOpenAI._generate`
(src/promptlayer/langchain/llms/promptlayer_openai.py, lines 44 to 67):
iterates over the prompts by index, reads `generations[i][0]` (an
`IndexError` when a list runs short), looks up the token usage, reports
the event, and when `return_pl_id` is truthy stamps the request id into
the generation info of `generations[i][0]` only.  Returns the updated
generation lists together with the events reported, in order. -/
def llmLoop (fname : String) (cfg : PLConfig)
    (identifying_params : List (String × PyVal)) (t0 t1 : Int)
    (llm_output : PyVal) (oracle : CallEvent → Except PyErr (Option String)) :
    List String → List (List Generation) →
    Except PyErr (List (List Generation) × List CallEvent)
  | [], gens => .ok (gens, [])
  | _ :: _, [] => .error .indexError
  | _ :: _, [] :: _ => .error .indexError
  | p :: ps, (g :: gtail) :: grest =>
      match tokenUsage llm_output with
      | .error e => .error e
      | .ok usage =>
          let ev := mkLLMEvent fname cfg identifying_params t0 t1 usage p g.text
          let plId := reporterRun oracle ev
          let g2 := if truthyFlag cfg.return_pl_id then
              { g with generation_info := stampInfo g.generation_info (plIdVal plId) }
            else g
          match llmLoop fname cfg identifying_params t0 t1 llm_output oracle ps grest with
          | .error e => .error e
          | .ok (rest2, evs) => .ok ((g2 :: gtail) :: rest2, ev :: evs)

/-- Common body of `PromptLayerOpenAI._generate` and `_agenerate`
(src/promptlayer/langchain/llms/promptlayer_openai.py, lines 35 to 102):
the two methods are verbatim duplicates differing only in the function
name reported and in awaiting the underlying call and the reporter, so
both are embedded as instances of this core with their name constants.
`base` is the outcome of the underlying `super()._generate` call; an
exception there propagates before any reporting happens. -/
def llmGenerateCore (fname : String) (cfg : PLConfig)
    (identifying_params : List (String × PyVal)) (prompts : List String)
    (t0 t1 : Int) (base : Except PyErr LLMResult)
    (oracle : CallEvent → Except PyErr (Option String)) :
    Except PyErr (LLMResult × List CallEvent) :=
  match base with
  | .error e => .error e
  | .ok res =>
      match llmLoop fname cfg identifying_params t0 t1 res.llm_output oracle
          prompts res.generations with
      | .error e => .error e
      | .ok (gens2, evs) => .ok ({ res with generations := gens2 }, evs)

/-- `PromptLayerOpenAI._generate`
(src/promptlayer/langchain/llms/promptlayer_openai.py, lines 35 to 68). -/
def PromptLayerOpenAI_generate := llmGenerateCore "langchain.PromptLayerOpenAI"

/-- `PromptLayerOpenAI._agenerate`
(src/promptlayer/langchain/llms/promptlayer_openai.py, lines 70 to 102). -/
def PromptLayerOpenAI_agenerate := llmGenerateCore "langchain.PromptLayerOpenAI.async"

/-- One `ChatGeneration` of the langchain chat result, over an abstract
message type `μ`: the response message and the `generation_info`
attribute. -/
structure ChatGeneration (μ : Type) where
  message : μ
  generation_info : PyVal

/-- The langchain `ChatResult`: a flat list of chat generations plus the
`llm_output` dict carrying `token_usage`. -/
structure ChatResult (μ : Type) where
  generations : List (ChatGeneration μ)
  llm_output : PyVal

/-- The call event `PromptLayerChatOpenAI._generate` builds for one
generation (src/promptlayer/langchain/chat_models/promptlayer_openai.py,
lines 41 to 58): args is the message dict list built from the input
messages, kwargs is the params value returned by the per-generation
`_create_message_dicts` call (the source rebinds `params` inside the
loop), the response is the message dict list built from the generated
message. -/
def mkChatEvent (fname : String) (cfg : PLConfig) (t0 t1 : Int)
    (message_dicts : List PyVal) (response_dict : List PyVal)
    (params : List (String × PyVal)) (usage : PyVal) : CallEvent where
  function_name := fname
  provider_type := "langchain"
  eventArgs := message_dicts
  kwargs := params
  tags := cfg.pl_tags
  request_response := .vList response_dict
  request_start_time := t0
  request_end_time := t1
  usage := usage
  eventMetadata := adapterMetadata cfg.pl_project
  return_pl_id := truthyFlag cfg.return_pl_id

/-- The loop body of `PromptLayerChatOpenAI._generate`
(src/promptlayer/langchain/chat_models/promptlayer_openai.py, lines 41 to
64): iterates over every generation of the result, converts the generated
message through `_create_message_dicts` (the external langchain helper,
abstracted as `cmd`), looks up the token usage, reports the event, and
when `return_pl_id` is truthy stamps the request id into the generation
info of every generation. -/
def chatLoop {μ : Type} (fname : String) (cfg : PLConfig)
    (cmd : List μ → Option (List String) → List PyVal × List (String × PyVal))
    (stop : Option (List String)) (t0 t1 : Int) (message_dicts : List PyVal)
    (llm_output : PyVal) (oracle : CallEvent → Except PyErr (Option String)) :
    List (ChatGeneration μ) →
    Except PyErr (List (ChatGeneration μ) × List CallEvent)
  | [] => .ok ([], [])
  | g :: grest =>
      let rp := cmd [g.message] stop
      match tokenUsage llm_output with
      | .error e => .error e
      | .ok usage =>
          let ev := mkChatEvent fname cfg t0 t1 message_dicts rp.1 rp.2 usage
          let plId := reporterRun oracle ev
          let g2 := if truthyFlag cfg.return_pl_id then
              { g with generation_info := stampInfo g.generation_info (plIdVal plId) }
            else g
          match chatLoop fname cfg cmd stop t0 t1 message_dicts llm_output oracle grest with
          | .error e => .error e
          | .ok (rest2, evs) => .ok (g2 :: rest2, ev :: evs)

/-- Common body of `PromptLayerChatOpenAI._generate` and `_agenerate`
(src/promptlayer/langchain/chat_models/promptlayer_openai.py, lines 31 to
101): verbatim duplicates differing only in the reported function name and
in awaiting, embedded as instances of this core.  `base` is the outcome of
the underlying `super()._generate` call; an exception there propagates
before any reporting happens.  `message_dicts` is built once from the
input messages via `cmd` before the loop. -/
def chatGenerateCore {μ : Type} (fname : String) (cfg : PLConfig)
    (cmd : List μ → Option (List String) → List PyVal × List (String × PyVal))
    (messages : List μ) (stop : Option (List String)) (t0 t1 : Int)
    (base : Except PyErr (ChatResult μ))
    (oracle : CallEvent → Except PyErr (Option String)) :
    Except PyErr (ChatResult μ × List CallEvent) :=
  match base with
  | .error e => .error e
  | .ok res =>
      let mdp := cmd messages stop
      match chatLoop fname cfg cmd stop t0 t1 mdp.1 res.llm_output oracle
          res.generations with
      | .error e => .error e
      | .ok (gens2, evs) => .ok ({ res with generations := gens2 }, evs)

/-- `PromptLayerChatOpenAI._generate`
(src/promptlayer/langchain/chat_models/promptlayer_openai.py, lines 31 to
65). -/
def PromptLayerChatOpenAI_generate {μ : Type} :=
  @chatGenerateCore μ "langchain.PromptLayerChatOpenAI"

/-- `PromptLayerChatOpenAI._agenerate`
(src/promptlayer/langchain/chat_models/promptlayer_openai.py, lines 67 to
101). -/
def PromptLayerChatOpenAI_agenerate {μ : Type} :=
  @chatGenerateCore μ "langchain.PromptLayerChatOpenAI.async"

end langchain

/-- Modelled from the spec: the generic proxy `PromptLayerBase` lives in
`promptlayer/promptlayer.py`, which is not under src/ (only its import in
src/promptlayer/__init__.py is).  Per the spec (section 4.1), invoking a
wrapped callable records start and end times, invokes the original target
with the exact arguments supplied, builds a `CallEvent` with the
configured function name, provider and tags, dispatches it to the reporter
with any reporting failure swallowed, and returns the original result
unchanged; an exception raised by the target itself propagates unmodified
and no reporting happens.  The returned event list records the reporting
activity for observation. -/
def proxyCall {α β : Type} (fname : String) (tags : Option (List String))
    (target : α → Except PyErr β) (encodeArg : α → PyVal)
    (encodeRes : β → PyVal) (t0 t1 : Int)
    (oracle : CallEvent → Except PyErr (Option String)) (x : α) :
    Except PyErr (β × List CallEvent) :=
  match target x with
  | .error e => .error e
  | .ok r =>
      let ev : CallEvent :=
        { function_name := fname
          provider_type := "openai"
          eventArgs := [encodeArg x]
          kwargs := []
          tags := tags
          request_response := encodeRes r
          request_start_time := t0
          request_end_time := t1
          usage := .vNone
          eventMetadata := []
          return_pl_id := false }
      let _plId := reporterRun oracle ev
      .ok (r, [ev])

/-! Supporting lemmas. -/

/-- Setting a string key in a dict makes it readable back, whether the key
was present (value replaced) or absent (entry appended). -/
theorem dictLookup_dictSet_self (d : List (PyVal × PyVal)) (k : String)
    (v : PyVal) : dictLookup (dictSet d k v) k = some v := by
  induction d with
  | nil => simp [dictSet, dictLookup]
  | cons kv rest ih =>
      obtain ⟨k0, v0⟩ := kv
      cases k0 with
      | vStr s =>
          by_cases h : s = k
          · simp [dictSet, dictLookup, h]
          · simp [dictSet, dictLookup, h, ih]
      | vNone => simp [dictSet, dictLookup, ih]
      | vBool b => simp [dictSet, dictLookup, ih]
      | vInt n => simp [dictSet, dictLookup, ih]
      | vList xs => simp [dictSet, dictLookup, ih]
      | vDict es => simp [dictSet, dictLookup, ih]

/-- Renaming the reported function name of a completion adapter event. -/
theorem mkLLMEvent_rename (f1 f2 : String) (cfg : PLConfig)
    (idp : List (String × PyVal)) (t0 t1 : Int) (usage : PyVal)
    (p txt : String) :
    { langchain.mkLLMEvent f1 cfg idp t0 t1 usage p txt with function_name := f2 }
      = langchain.mkLLMEvent f2 cfg idp t0 t1 usage p txt := rfl

/-- The completion adapter loop reports the same payloads whatever the
reporter oracle does, and depends on the reported function name only
through the `function_name` field of each event; a failure outcome is the
same failure on both sides.  The sync and async bodies differ exactly in
the name and the concurrency primitive, so this equation relates their
runs. -/
theorem llmLoop_rename (f1 f2 : String) (cfg : PLConfig)
    (idp : List (String × PyVal)) (t0 t1 : Int) (lo : PyVal)
    (o1 o2 : CallEvent → Except PyErr (Option String)) :
    ∀ (ps : List String) (gens : List (List langchain.Generation)),
      (langchain.llmLoop f2 cfg idp t0 t1 lo o2 ps gens).map (fun pr => pr.2)
        = (langchain.llmLoop f1 cfg idp t0 t1 lo o1 ps gens).map
            (fun pr => pr.2.map (fun ev => { ev with function_name := f2 })) := by
  intro ps
  induction ps with
  | nil => intro gens; simp [langchain.llmLoop, Except.map]
  | cons p ps ih =>
      intro gens
      rcases gens with _ | ⟨_ | ⟨g, gt⟩, grest⟩
      · simp [langchain.llmLoop, Except.map]
      · simp [langchain.llmLoop, Except.map]
      · cases htu : langchain.tokenUsage lo with
        | error e0 => simp [langchain.llmLoop, htu, Except.map]
        | ok usage =>
            have ihg := ih grest
            cases h1 : langchain.llmLoop f1 cfg idp t0 t1 lo o1 ps grest with
            | error e0 =>
                have h2 : langchain.llmLoop f2 cfg idp t0 t1 lo o2 ps grest
                    = .error e0 := by
                  rw [h1] at ihg
                  cases h2x : langchain.llmLoop f2 cfg idp t0 t1 lo o2 ps grest with
                  | error e1 => rw [h2x] at ihg; simp [Except.map] at ihg; rw [ihg]
                  | ok pr => rw [h2x] at ihg; simp [Except.map] at ihg
                simp [langchain.llmLoop, htu, h1, h2, Except.map]
            | ok pr =>
                obtain ⟨gr1, evs1r⟩ := pr
                rw [h1] at ihg
                cases h2x : langchain.llmLoop f2 cfg idp t0 t1 lo o2 ps grest with
                | error e1 => rw [h2x] at ihg; simp [Except.map] at ihg
                | ok pr2 =>
                    obtain ⟨gr2, evs2r⟩ := pr2
                    rw [h2x] at ihg
                    simp only [Except.map, Except.ok.injEq] at ihg
                    simp [langchain.llmLoop, htu, h1, h2x, Except.map, ihg,
                          mkLLMEvent_rename]

/-- With a falsy `return_pl_id` the completion adapter loop behaves the
same for every reporter oracle and returns the generation lists
untouched. -/
theorem llmLoop_no_stamp (f : String) (cfg : PLConfig)
    (idp : List (String × PyVal)) (t0 t1 : Int) (lo : PyVal)
    (o1 o2 : CallEvent → Except PyErr (Option String))
    (hfl : truthyFlag cfg.return_pl_id = false) :
    ∀ (ps : List String) (gens : List (List langchain.Generation)),
      langchain.llmLoop f cfg idp t0 t1 lo o1 ps gens
        = langchain.llmLoop f cfg idp t0 t1 lo o2 ps gens
      ∧ (langchain.llmLoop f cfg idp t0 t1 lo o1 ps gens).map (fun pr => pr.1)
          = (langchain.llmLoop f cfg idp t0 t1 lo o1 ps gens).map (fun _ => gens) := by
  intro ps
  induction ps with
  | nil => intro gens; exact ⟨rfl, rfl⟩
  | cons p ps ih =>
      intro gens
      rcases gens with _ | ⟨_ | ⟨g, gt⟩, grest⟩
      · exact ⟨rfl, rfl⟩
      · exact ⟨rfl, rfl⟩
      · cases htu : langchain.tokenUsage lo with
        | error e0 =>
            constructor <;> simp [langchain.llmLoop, htu, Except.map]
        | ok usage =>
            obtain ⟨ih1, ih2⟩ := ih grest
            cases h1 : langchain.llmLoop f cfg idp t0 t1 lo o1 ps grest with
            | error e0 =>
                rw [h1] at ih1
                constructor <;>
                  simp [langchain.llmLoop, htu, h1, ← ih1, hfl, Except.map]
            | ok pr =>
                obtain ⟨gr1, evs1⟩ := pr
                rw [h1] at ih1 ih2
                have hgr : gr1 = grest := by simpa [Except.map] using ih2
                constructor
                · simp [langchain.llmLoop, htu, h1, ← ih1, hfl]
                · simp [langchain.llmLoop, htu, h1, hfl, Except.map, hgr]

/-- Every event a successful completion adapter loop reports carries the
loop function name and the adapter metadata dict. -/
theorem llmLoop_event_fields (f : String) (cfg : PLConfig)
    (idp : List (String × PyVal)) (t0 t1 : Int) (lo : PyVal)
    (o : CallEvent → Except PyErr (Option String)) :
    ∀ (ps : List String) (gens gens2 : List (List langchain.Generation))
      (evs : List CallEvent),
      langchain.llmLoop f cfg idp t0 t1 lo o ps gens = .ok (gens2, evs) →
      ∀ ev ∈ evs, ev.function_name = f
        ∧ ev.eventMetadata = adapterMetadata cfg.pl_project := by
  intro ps
  induction ps with
  | nil =>
      intro gens gens2 evs h
      simp only [langchain.llmLoop, Except.ok.injEq, Prod.mk.injEq] at h
      rw [← h.2]
      intro ev hev
      cases hev
  | cons p ps ih =>
      intro gens gens2 evs h
      rcases gens with _ | ⟨_ | ⟨g, gt⟩, grest⟩
      · simp [langchain.llmLoop] at h
      · simp [langchain.llmLoop] at h
      · cases htu : langchain.tokenUsage lo with
        | error e0 => simp [langchain.llmLoop, htu] at h
        | ok usage =>
            cases h1 : langchain.llmLoop f cfg idp t0 t1 lo o ps grest with
            | error e0 => simp [langchain.llmLoop, htu, h1] at h
            | ok pr =>
                obtain ⟨gr1, evs1⟩ := pr
                simp only [langchain.llmLoop, htu, h1, Except.ok.injEq,
                           Prod.mk.injEq] at h
                rw [← h.2]
                intro ev hev
                rcases List.mem_cons.mp hev with hev0 | hevr
                · subst hev0
                  exact ⟨rfl, rfl⟩
                · exact ih grest gr1 evs1 h1 ev hevr

/-- With a truthy `return_pl_id` a successful completion adapter loop
stamps the reporter answer for each reported event into the generation
info of the first generation of the corresponding prompt, leaves the other
generations of that prompt alone, and leaves generation lists beyond the
prompts untouched. -/
theorem llmLoop_stamp (f : String) (cfg : PLConfig)
    (idp : List (String × PyVal)) (t0 t1 : Int) (lo : PyVal)
    (o : CallEvent → Except PyErr (Option String))
    (hfl : truthyFlag cfg.return_pl_id = true) :
    ∀ (ps : List String) (gens gens2 : List (List langchain.Generation))
      (evs : List CallEvent),
      langchain.llmLoop f cfg idp t0 t1 lo o ps gens = .ok (gens2, evs) →
      List.Forall₂
        (fun (pr : List langchain.Generation × CallEvent) gl2 =>
          ∃ g gt, pr.1 = g :: gt ∧
            gl2 = { g with
                    generation_info :=
                      stampInfo g.generation_info
                        (plIdVal (reporterRun o pr.2)) } :: gt)
        ((gens.take ps.length).zip evs) (gens2.take ps.length)
      ∧ gens2.drop ps.length = gens.drop ps.length := by
  intro ps
  induction ps with
  | nil =>
      intro gens gens2 evs h
      simp only [langchain.llmLoop, Except.ok.injEq, Prod.mk.injEq] at h
      rw [← h.1]
      exact ⟨by simp, by simp⟩
  | cons p ps ih =>
      intro gens gens2 evs h
      rcases gens with _ | ⟨_ | ⟨g, gt⟩, grest⟩
      · simp [langchain.llmLoop] at h
      · simp [langchain.llmLoop] at h
      · cases htu : langchain.tokenUsage lo with
        | error e0 => simp [langchain.llmLoop, htu] at h
        | ok usage =>
            cases h1 : langchain.llmLoop f cfg idp t0 t1 lo o ps grest with
            | error e0 => simp [langchain.llmLoop, htu, h1] at h
            | ok pr =>
                obtain ⟨gr1, evs1⟩ := pr
                simp only [langchain.llmLoop, htu, h1, hfl, if_true,
                           Except.ok.injEq, Prod.mk.injEq] at h
                obtain ⟨ihf, ihd⟩ := ih grest gr1 evs1 h1
                rw [← h.1, ← h.2]
                constructor
                · simp only [List.length_cons, List.take_succ_cons,
                             List.zip_cons_cons]
                  refine List.Forall₂.cons ?_ ihf
                  exact ⟨g, gt, rfl, by simp [hfl]⟩
                · simpa using ihd

/-- Renaming the reported function name of a chat adapter event. -/
theorem mkChatEvent_rename (f1 f2 : String) (cfg : PLConfig) (t0 t1 : Int)
    (mds rds : List PyVal) (params : List (String × PyVal)) (usage : PyVal) :
    { langchain.mkChatEvent f1 cfg t0 t1 mds rds params usage with
      function_name := f2 }
      = langchain.mkChatEvent f2 cfg t0 t1 mds rds params usage := rfl

/-- The chat adapter loop reports the same payloads whatever the reporter
oracle does, and depends on the reported function name only through the
`function_name` field of each event; a failure outcome is the same failure
on both sides. -/
theorem chatLoop_rename {μ : Type} (f1 f2 : String) (cfg : PLConfig)
    (cmd : List μ → Option (List String) → List PyVal × List (String × PyVal))
    (stop : Option (List String)) (t0 t1 : Int) (mds : List PyVal)
    (lo : PyVal) (o1 o2 : CallEvent → Except PyErr (Option String)) :
    ∀ (gens : List (langchain.ChatGeneration μ)),
      (langchain.chatLoop f2 cfg cmd stop t0 t1 mds lo o2 gens).map (fun pr => pr.2)
        = (langchain.chatLoop f1 cfg cmd stop t0 t1 mds lo o1 gens).map
            (fun pr => pr.2.map (fun ev => { ev with function_name := f2 })) := by
  intro gens
  induction gens with
  | nil => simp [langchain.chatLoop, Except.map]
  | cons g grest ih =>
      cases htu : langchain.tokenUsage lo with
      | error e0 => simp [langchain.chatLoop, htu, Except.map]
      | ok usage =>
          cases h1 : langchain.chatLoop f1 cfg cmd stop t0 t1 mds lo o1 grest with
          | error e0 =>
              have h2 : langchain.chatLoop f2 cfg cmd stop t0 t1 mds lo o2 grest
                  = .error e0 := by
                rw [h1] at ih
                cases h2x : langchain.chatLoop f2 cfg cmd stop t0 t1 mds lo o2 grest with
                | error e1 => rw [h2x] at ih; simp [Except.map] at ih; rw [ih]
                | ok pr => rw [h2x] at ih; simp [Except.map] at ih
              simp [langchain.chatLoop, htu, h1, h2, Except.map]
          | ok pr =>
              obtain ⟨gr1, evs1⟩ := pr
              rw [h1] at ih
              cases h2x : langchain.chatLoop f2 cfg cmd stop t0 t1 mds lo o2 grest with
              | error e1 => rw [h2x] at ih; simp [Except.map] at ih
              | ok pr2 =>
                  obtain ⟨gr2, evs2⟩ := pr2
                  rw [h2x] at ih
                  simp only [Except.map, Except.ok.injEq] at ih
                  simp [langchain.chatLoop, htu, h1, h2x, Except.map, ih,
                        mkChatEvent_rename]

/-- With a falsy `return_pl_id` the chat adapter loop behaves the same for
every reporter oracle and returns the generations untouched. -/
theorem chatLoop_no_stamp {μ : Type} (f : String) (cfg : PLConfig)
    (cmd : List μ → Option (List String) → List PyVal × List (String × PyVal))
    (stop : Option (List String)) (t0 t1 : Int) (mds : List PyVal)
    (lo : PyVal) (o1 o2 : CallEvent → Except PyErr (Option String))
    (hfl : truthyFlag cfg.return_pl_id = false) :
    ∀ (gens : List (langchain.ChatGeneration μ)),
      langchain.chatLoop f cfg cmd stop t0 t1 mds lo o1 gens
        = langchain.chatLoop f cfg cmd stop t0 t1 mds lo o2 gens
      ∧ (langchain.chatLoop f cfg cmd stop t0 t1 mds lo o1 gens).map (fun pr => pr.1)
          = (langchain.chatLoop f cfg cmd stop t0 t1 mds lo o1 gens).map
              (fun _ => gens) := by
  intro gens
  induction gens with
  | nil => exact ⟨rfl, rfl⟩
  | cons g grest ih =>
      cases htu : langchain.tokenUsage lo with
      | error e0 => constructor <;> simp [langchain.chatLoop, htu, Except.map]
      | ok usage =>
          obtain ⟨ih1, ih2⟩ := ih
          cases h1 : langchain.chatLoop f cfg cmd stop t0 t1 mds lo o1 grest with
          | error e0 =>
              rw [h1] at ih1
              constructor <;>
                simp [langchain.chatLoop, htu, h1, ← ih1, hfl, Except.map]
          | ok pr =>
              obtain ⟨gr1, evs1⟩ := pr
              rw [h1] at ih1 ih2
              have hgr : gr1 = grest := by simpa [Except.map] using ih2
              constructor
              · simp [langchain.chatLoop, htu, h1, ← ih1, hfl]
              · simp [langchain.chatLoop, htu, h1, hfl, Except.map, hgr]

/-- Every event a successful chat adapter loop reports carries the loop
function name and the adapter metadata dict. -/
theorem chatLoop_event_fields {μ : Type} (f : String) (cfg : PLConfig)
    (cmd : List μ → Option (List String) → List PyVal × List (String × PyVal))
    (stop : Option (List String)) (t0 t1 : Int) (mds : List PyVal)
    (lo : PyVal) (o : CallEvent → Except PyErr (Option String)) :
    ∀ (gens gens2 : List (langchain.ChatGeneration μ)) (evs : List CallEvent),
      langchain.chatLoop f cfg cmd stop t0 t1 mds lo o gens = .ok (gens2, evs) →
      ∀ ev ∈ evs, ev.function_name = f
        ∧ ev.eventMetadata = adapterMetadata cfg.pl_project := by
  intro gens
  induction gens with
  | nil =>
      intro gens2 evs h
      simp only [langchain.chatLoop, Except.ok.injEq, Prod.mk.injEq] at h
      rw [← h.2]
      intro ev hev
      cases hev
  | cons g grest ih =>
      intro gens2 evs h
      cases htu : langchain.tokenUsage lo with
      | error e0 => simp [langchain.chatLoop, htu] at h
      | ok usage =>
          cases h1 : langchain.chatLoop f cfg cmd stop t0 t1 mds lo o grest with
          | error e0 => simp [langchain.chatLoop, htu, h1] at h
          | ok pr =>
              obtain ⟨gr1, evs1⟩ := pr
              simp only [langchain.chatLoop, htu, h1, Except.ok.injEq,
                         Prod.mk.injEq] at h
              rw [← h.2]
              intro ev hev
              rcases List.mem_cons.mp hev with hev0 | hevr
              · subst hev0
                exact ⟨rfl, rfl⟩
              · exact ih gr1 evs1 h1 ev hevr

/-- With a truthy `return_pl_id` a successful chat adapter loop stamps the
reporter answer for each reported event into the generation info of every
generation, leaving the message untouched. -/
theorem chatLoop_stamp {μ : Type} (f : String) (cfg : PLConfig)
    (cmd : List μ → Option (List String) → List PyVal × List (String × PyVal))
    (stop : Option (List String)) (t0 t1 : Int) (mds : List PyVal)
    (lo : PyVal) (o : CallEvent → Except PyErr (Option String))
    (hfl : truthyFlag cfg.return_pl_id = true) :
    ∀ (gens gens2 : List (langchain.ChatGeneration μ)) (evs : List CallEvent),
      langchain.chatLoop f cfg cmd stop t0 t1 mds lo o gens = .ok (gens2, evs) →
      List.Forall₂
        (fun (pr : langchain.ChatGeneration μ × CallEvent) g2 =>
          g2 = { pr.1 with
                 generation_info :=
                   stampInfo pr.1.generation_info
                     (plIdVal (reporterRun o pr.2)) })
        (gens.zip evs) gens2
      ∧ evs.length = gens.length := by
  intro gens
  induction gens with
  | nil =>
      intro gens2 evs h
      simp only [langchain.chatLoop, Except.ok.injEq, Prod.mk.injEq] at h
      rw [← h.1, ← h.2]
      exact ⟨List.Forall₂.nil, rfl⟩
  | cons g grest ih =>
      intro gens2 evs h
      cases htu : langchain.tokenUsage lo with
      | error e0 => simp [langchain.chatLoop, htu] at h
      | ok usage =>
          cases h1 : langchain.chatLoop f cfg cmd stop t0 t1 mds lo o grest with
          | error e0 => simp [langchain.chatLoop, htu, h1] at h
          | ok pr =>
              obtain ⟨gr1, evs1⟩ := pr
              simp only [langchain.chatLoop, htu, h1, hfl, if_true,
                         Except.ok.injEq, Prod.mk.injEq] at h
              obtain ⟨ihf, ihl⟩ := ih gr1 evs1 h1
              rw [← h.1, ← h.2]
              refine ⟨?_, by simp [ihl]⟩
              simp only [List.zip_cons_cons]
              exact List.Forall₂.cons (by simp [hfl]) ihf

/-- Inversion of a successful completion adapter run: it comes from a
successful loop run, and the result only replaces the generation lists. -/
theorem llmGenerateCore_ok_inv (fname : String) (cfg : PLConfig)
    (idp : List (String × PyVal)) (ps : List String) (t0 t1 : Int)
    (res : langchain.LLMResult) (o : CallEvent → Except PyErr (Option String))
    (res2 : langchain.LLMResult) (evs : List CallEvent)
    (h : langchain.llmGenerateCore fname cfg idp ps t0 t1 (.ok res) o
          = .ok (res2, evs)) :
    ∃ gens2,
      langchain.llmLoop fname cfg idp t0 t1 res.llm_output o ps res.generations
        = .ok (gens2, evs)
      ∧ res2 = { res with generations := gens2 } := by
  simp only [langchain.llmGenerateCore] at h
  cases hl : langchain.llmLoop fname cfg idp t0 t1 res.llm_output o ps
      res.generations with
  | error e => rw [hl] at h; simp at h
  | ok pr =>
      obtain ⟨gens2, evs1⟩ := pr
      rw [hl] at h
      simp only [Except.ok.injEq, Prod.mk.injEq] at h
      exact ⟨gens2, by rw [h.2], h.1.symm⟩

/-- A successful completion adapter loop run determines the adapter
outcome. -/
theorem llmGenerateCore_ok_intro (fname : String) (cfg : PLConfig)
    (idp : List (String × PyVal)) (ps : List String) (t0 t1 : Int)
    (res : langchain.LLMResult) (o : CallEvent → Except PyErr (Option String))
    (gens2 : List (List langchain.Generation)) (evs : List CallEvent)
    (hl : langchain.llmLoop fname cfg idp t0 t1 res.llm_output o ps res.generations
          = .ok (gens2, evs)) :
    langchain.llmGenerateCore fname cfg idp ps t0 t1 (.ok res) o
      = .ok ({ res with generations := gens2 }, evs) := by
  simp [langchain.llmGenerateCore, hl]

/-- Inversion of a successful chat adapter run: it comes from a successful
loop run over the message dicts built from the input messages, and the
result only replaces the generations. -/
theorem chatGenerateCore_ok_inv {μ : Type} (fname : String) (cfg : PLConfig)
    (cmd : List μ → Option (List String) → List PyVal × List (String × PyVal))
    (msgs : List μ) (stop : Option (List String)) (t0 t1 : Int)
    (res : langchain.ChatResult μ) (o : CallEvent → Except PyErr (Option String))
    (res2 : langchain.ChatResult μ) (evs : List CallEvent)
    (h : langchain.chatGenerateCore fname cfg cmd msgs stop t0 t1 (.ok res) o
          = .ok (res2, evs)) :
    ∃ gens2,
      langchain.chatLoop fname cfg cmd stop t0 t1 (cmd msgs stop).1
          res.llm_output o res.generations
        = .ok (gens2, evs)
      ∧ res2 = { res with generations := gens2 } := by
  simp only [langchain.chatGenerateCore] at h
  cases hl : langchain.chatLoop fname cfg cmd stop t0 t1 (cmd msgs stop).1
      res.llm_output o res.generations with
  | error e => rw [hl] at h; simp at h
  | ok pr =>
      obtain ⟨gens2, evs1⟩ := pr
      rw [hl] at h
      simp only [Except.ok.injEq, Prod.mk.injEq] at h
      exact ⟨gens2, by rw [h.2], h.1.symm⟩

/-- A successful chat adapter loop run determines the adapter outcome. -/
theorem chatGenerateCore_ok_intro {μ : Type} (fname : String) (cfg : PLConfig)
    (cmd : List μ → Option (List String) → List PyVal × List (String × PyVal))
    (msgs : List μ) (stop : Option (List String)) (t0 t1 : Int)
    (res : langchain.ChatResult μ) (o : CallEvent → Except PyErr (Option String))
    (gens2 : List (langchain.ChatGeneration μ)) (evs : List CallEvent)
    (hl : langchain.chatLoop fname cfg cmd stop t0 t1 (cmd msgs stop).1
          res.llm_output o res.generations = .ok (gens2, evs)) :
    langchain.chatGenerateCore fname cfg cmd msgs stop t0 t1 (.ok res) o
      = .ok ({ res with generations := gens2 }, evs) := by
  simp [langchain.chatGenerateCore, hl]

/-- Reading the request id back out of a generation info value. -/
def infoPlId (info : PyVal) : Option PyVal :=
  match info with
  | .vDict entries => dictLookup entries "pl_request_id"
  | _ => none

/-- Stamping a generation info always leaves the request id readable under
the key `pl_request_id`. -/
theorem infoPlId_stampInfo (info plv : PyVal) :
    infoPlId (stampInfo info plv) = some plv := by
  cases info <;>
    simp [stampInfo, infoPlId, dictLookup, dictLookup_dictSet_self]

/-! Claim theorems. -/

/-- C9: an exception raised by the wrapped target itself propagates
unmodified through the proxy and through both framework adapters: the
outcome is that very exception whatever the reporter oracle is, it is not
replaced or wrapped, and no reporting step runs (the adapters report only
after the underlying call returned). -/
theorem claim9_target_exception_propagates :
    (∀ (α β : Type) (fname : String) (tags : Option (List String))
       (target : α → Except PyErr β) (encA : α → PyVal) (encR : β → PyVal)
       (t0 t1 : Int) (o : CallEvent → Except PyErr (Option String)) (x : α)
       (e : PyErr), target x = .error e →
       proxyCall fname tags target encA encR t0 t1 o x = .error e)
    ∧ (∀ (fname : String) (cfg : PLConfig) (idp : List (String × PyVal))
         (ps : List String) (t0 t1 : Int) (e : PyErr)
         (o : CallEvent → Except PyErr (Option String)),
         langchain.llmGenerateCore fname cfg idp ps t0 t1 (.error e) o
           = .error e)
    ∧ (∀ (μ : Type) (fname : String) (cfg : PLConfig)
         (cmd : List μ → Option (List String) → List PyVal × List (String × PyVal))
         (msgs : List μ) (stop : Option (List String)) (t0 t1 : Int)
         (e : PyErr) (o : CallEvent → Except PyErr (Option String)),
         langchain.chatGenerateCore fname cfg cmd msgs stop t0 t1 (.error e) o
           = .error e) := by
  refine ⟨?_, ?_, ?_⟩
  · intro α β fname tags target encA encR t0 t1 o x e hx
    simp [proxyCall, hx]
  · intro fname cfg idp ps t0 t1 e o
    rfl
  · intro μ fname cfg cmd msgs stop t0 t1 e o
    rfl

/-- Witness for C9 at a concrete raising target and adapter run. -/
theorem claim9_target_exception_propagates_witness :
    proxyCall "openai.Completion.create" none
        (fun _ : PyVal => (.error (.exception "boom") : Except PyErr PyVal))
        id id 0 1 (fun _ => .ok none) (.vStr "x")
      = .error (.exception "boom")
    ∧ langchain.llmGenerateCore "langchain.PromptLayerOpenAI"
        ⟨none, none, some false⟩ [] ["p"] 0 1 (.error (.exception "boom"))
        (fun _ => .ok none)
      = .error (.exception "boom") :=
  ⟨claim9_target_exception_propagates.1 PyVal PyVal "openai.Completion.create"
      none (fun _ => .error (.exception "boom")) id id 0 1 (fun _ => .ok none)
      (.vStr "x") (.exception "boom") rfl,
   claim9_target_exception_propagates.2.1 "langchain.PromptLayerOpenAI"
      ⟨none, none, some false⟩ [] ["p"] 0 1 (.exception "boom")
      (fun _ => .ok none)⟩

/-- C1: invoking a wrapped callable through the proxy returns exactly the
value the original target returns, and the outcome does not depend on the
reporter oracle at all: a failing, raising or succeeding reporter yields
the same returned value and never raises.  The framework adapters, with
the request id return disabled (its default), likewise return the
underlying result unchanged for every reporter oracle. -/
theorem claim1_wrapped_result_transparent :
    (∀ (α β : Type) (fname : String) (tags : Option (List String))
       (target : α → Except PyErr β) (encA : α → PyVal) (encR : β → PyVal)
       (t0 t1 : Int) (o1 o2 : CallEvent → Except PyErr (Option String)) (x : α),
       proxyCall fname tags target encA encR t0 t1 o1 x
         = proxyCall fname tags target encA encR t0 t1 o2 x)
    ∧ (∀ (α β : Type) (fname : String) (tags : Option (List String))
         (target : α → Except PyErr β) (encA : α → PyVal) (encR : β → PyVal)
         (t0 t1 : Int) (o : CallEvent → Except PyErr (Option String)) (x : α)
         (r : β), target x = .ok r →
         ∃ evs, proxyCall fname tags target encA encR t0 t1 o x = .ok (r, evs))
    ∧ (∀ (fname : String) (cfg : PLConfig) (idp : List (String × PyVal))
         (ps : List String) (t0 t1 : Int) (res : langchain.LLMResult)
         (o1 o2 : CallEvent → Except PyErr (Option String)),
         truthyFlag cfg.return_pl_id = false →
         langchain.llmGenerateCore fname cfg idp ps t0 t1 (.ok res) o1
           = langchain.llmGenerateCore fname cfg idp ps t0 t1 (.ok res) o2
         ∧ (∀ res2 evs,
             langchain.llmGenerateCore fname cfg idp ps t0 t1 (.ok res) o1
               = .ok (res2, evs) → res2 = res))
    ∧ (∀ (μ : Type) (fname : String) (cfg : PLConfig)
         (cmd : List μ → Option (List String) → List PyVal × List (String × PyVal))
         (msgs : List μ) (stop : Option (List String)) (t0 t1 : Int)
         (res : langchain.ChatResult μ)
         (o1 o2 : CallEvent → Except PyErr (Option String)),
         truthyFlag cfg.return_pl_id = false →
         langchain.chatGenerateCore fname cfg cmd msgs stop t0 t1 (.ok res) o1
           = langchain.chatGenerateCore fname cfg cmd msgs stop t0 t1 (.ok res) o2
         ∧ (∀ res2 evs,
             langchain.chatGenerateCore fname cfg cmd msgs stop t0 t1 (.ok res) o1
               = .ok (res2, evs) → res2 = res)) := by
  refine ⟨?_, ?_, ?_, ?_⟩
  · intro α β fname tags target encA encR t0 t1 o1 o2 x
    cases hx : target x with
    | error e => simp [proxyCall, hx]
    | ok r => simp [proxyCall, hx]
  · intro α β fname tags target encA encR t0 t1 o x r hx
    exact ⟨[⟨fname, "openai", [encA x], [], tags, encR r, t0, t1, .vNone, [], false⟩],
           by simp [proxyCall, hx]⟩
  · intro fname cfg idp ps t0 t1 res o1 o2 hfl
    obtain ⟨heq, hfst⟩ := llmLoop_no_stamp fname cfg idp t0 t1 res.llm_output
      o1 o2 hfl ps res.generations
    constructor
    · simp only [langchain.llmGenerateCore, heq]
    · intro res2 evs h
      obtain ⟨gens2, hl, hres2⟩ := llmGenerateCore_ok_inv fname cfg idp ps t0 t1
        res o1 res2 evs h
      rw [hl] at hfst
      have hg : gens2 = res.generations := by simpa [Except.map] using hfst
      rw [hres2, hg]
  · intro μ fname cfg cmd msgs stop t0 t1 res o1 o2 hfl
    obtain ⟨heq, hfst⟩ := chatLoop_no_stamp fname cfg cmd stop t0 t1
      (cmd msgs stop).1 res.llm_output o1 o2 hfl res.generations
    constructor
    · simp only [langchain.chatGenerateCore, heq]
    · intro res2 evs h
      obtain ⟨gens2, hl, hres2⟩ := chatGenerateCore_ok_inv fname cfg cmd msgs
        stop t0 t1 res o1 res2 evs h
      rw [hl] at hfst
      have hg : gens2 = res.generations := by simpa [Except.map] using hfst
      rw [hres2, hg]

/-- C3 counterexample: the sync and async completion adapter bodies, run
on the same logical invocation, report payloads that differ: the claim
asserts the same `function_name`, yet the sync body reports
`langchain.PromptLayerOpenAI` while the async body reports
`langchain.PromptLayerOpenAI.async`. -/
theorem claim3_counterexample_function_name_differs :
    Except.map (fun pr => pr.2.map CallEvent.function_name)
        (langchain.PromptLayerOpenAI_generate ⟨none, none, some false⟩ [] ["p"]
          0 1 (.ok ⟨[[⟨"hi", PyVal.vNone⟩]],
                    .vDict [(.vStr "token_usage", .vDict [])]⟩)
          (fun _ => .ok none))
      = .ok ["langchain.PromptLayerOpenAI"]
    ∧ Except.map (fun pr => pr.2.map CallEvent.function_name)
        (langchain.PromptLayerOpenAI_agenerate ⟨none, none, some false⟩ [] ["p"]
          0 1 (.ok ⟨[[⟨"hi", PyVal.vNone⟩]],
                    .vDict [(.vStr "token_usage", .vDict [])]⟩)
          (fun _ => .ok none))
      = .ok ["langchain.PromptLayerOpenAI.async"]
    ∧ (["langchain.PromptLayerOpenAI"] : List String)
        ≠ ["langchain.PromptLayerOpenAI.async"] :=
  ⟨rfl, rfl, by decide⟩

/-- C3 amended: for a logically identical invocation the sync and async
adapter bodies (of both adapters) report event lists whose members agree
on every field, `args`, `kwargs`, `tags`, `response`, timestamps, `usage`
and `metadata` included, except `function_name`: the sync events carry the
adapter constant and the async events carry it with the `.async` suffix
appended. -/
theorem claim3_sync_async_payloads :
    (∀ (cfg : PLConfig) (idp : List (String × PyVal)) (ps : List String)
       (t0 t1 : Int) (base : Except PyErr langchain.LLMResult)
       (o1 o2 : CallEvent → Except PyErr (Option String))
       (r1 : langchain.LLMResult) (evs1 : List CallEvent),
       langchain.PromptLayerOpenAI_generate cfg idp ps t0 t1 base o1
         = .ok (r1, evs1) →
       (∀ ev ∈ evs1, ev.function_name = "langchain.PromptLayerOpenAI")
       ∧ Except.map (fun pr => pr.2)
           (langchain.PromptLayerOpenAI_agenerate cfg idp ps t0 t1 base o2)
         = .ok (evs1.map (fun ev =>
             { ev with function_name := "langchain.PromptLayerOpenAI.async" })))
    ∧ (∀ (μ : Type) (cfg : PLConfig)
         (cmd : List μ → Option (List String) → List PyVal × List (String × PyVal))
         (msgs : List μ) (stop : Option (List String)) (t0 t1 : Int)
         (base : Except PyErr (langchain.ChatResult μ))
         (o1 o2 : CallEvent → Except PyErr (Option String))
         (r1 : langchain.ChatResult μ) (evs1 : List CallEvent),
         langchain.PromptLayerChatOpenAI_generate cfg cmd msgs stop t0 t1 base o1
           = .ok (r1, evs1) →
         (∀ ev ∈ evs1, ev.function_name = "langchain.PromptLayerChatOpenAI")
         ∧ Except.map (fun pr => pr.2)
             (langchain.PromptLayerChatOpenAI_agenerate cfg cmd msgs stop t0 t1
               base o2)
           = .ok (evs1.map (fun ev =>
               { ev with
                 function_name := "langchain.PromptLayerChatOpenAI.async" }))) := by
  constructor
  · intro cfg idp ps t0 t1 base o1 o2 r1 evs1 h
    simp only [langchain.PromptLayerOpenAI_generate] at h
    simp only [langchain.PromptLayerOpenAI_agenerate]
    cases base with
    | error e => simp [langchain.llmGenerateCore] at h
    | ok res =>
        obtain ⟨gens2, hl, hres⟩ := llmGenerateCore_ok_inv
          "langchain.PromptLayerOpenAI" cfg idp ps t0 t1 res o1 r1 evs1 h
        refine ⟨fun ev hev => (llmLoop_event_fields "langchain.PromptLayerOpenAI"
          cfg idp t0 t1 res.llm_output o1 ps res.generations gens2 evs1 hl ev
          hev).1, ?_⟩
        have hrn := llmLoop_rename "langchain.PromptLayerOpenAI"
          "langchain.PromptLayerOpenAI.async" cfg idp t0 t1 res.llm_output o1 o2
          ps res.generations
        rw [hl] at hrn
        cases h2 : langchain.llmLoop "langchain.PromptLayerOpenAI.async" cfg idp
            t0 t1 res.llm_output o2 ps res.generations with
        | error e => rw [h2] at hrn; simp [Except.map] at hrn
        | ok pr2 =>
            obtain ⟨g2x, evs2x⟩ := pr2
            rw [h2] at hrn
            simp only [Except.map, Except.ok.injEq] at hrn
            have hcore := llmGenerateCore_ok_intro
              "langchain.PromptLayerOpenAI.async" cfg idp ps t0 t1 res o2 g2x
              evs2x h2
            rw [hcore]
            simp [Except.map, hrn]
  · intro μ cfg cmd msgs stop t0 t1 base o1 o2 r1 evs1 h
    simp only [langchain.PromptLayerChatOpenAI_generate] at h
    simp only [langchain.PromptLayerChatOpenAI_agenerate]
    cases base with
    | error e => simp [langchain.chatGenerateCore] at h
    | ok res =>
        obtain ⟨gens2, hl, hres⟩ := chatGenerateCore_ok_inv
          "langchain.PromptLayerChatOpenAI" cfg cmd msgs stop t0 t1 res o1 r1
          evs1 h
        refine ⟨fun ev hev => (chatLoop_event_fields
          "langchain.PromptLayerChatOpenAI" cfg cmd stop t0 t1 (cmd msgs stop).1
          res.llm_output o1 res.generations gens2 evs1 hl ev hev).1, ?_⟩
        have hrn := chatLoop_rename "langchain.PromptLayerChatOpenAI"
          "langchain.PromptLayerChatOpenAI.async" cfg cmd stop t0 t1
          (cmd msgs stop).1 res.llm_output o1 o2 res.generations
        rw [hl] at hrn
        cases h2 : langchain.chatLoop "langchain.PromptLayerChatOpenAI.async"
            cfg cmd stop t0 t1 (cmd msgs stop).1 res.llm_output o2
            res.generations with
        | error e => rw [h2] at hrn; simp [Except.map] at hrn
        | ok pr2 =>
            obtain ⟨g2x, evs2x⟩ := pr2
            rw [h2] at hrn
            simp only [Except.map, Except.ok.injEq] at hrn
            have hcore := chatGenerateCore_ok_intro
              "langchain.PromptLayerChatOpenAI.async" cfg cmd msgs stop t0 t1
              res o2 g2x evs2x h2
            rw [hcore]
            simp [Except.map, hrn]

/-- Witness for the amended C3 at a concrete invocation: the async payload
computed through the theorem from the concrete sync run. -/
theorem claim3_sync_async_payloads_witness :
    Except.map (fun pr => pr.2)
        (langchain.PromptLayerOpenAI_agenerate ⟨none, none, some false⟩ [] ["p"]
          0 1 (.ok ⟨[[⟨"hi", PyVal.vNone⟩]],
                    .vDict [(.vStr "token_usage", .vDict [])]⟩)
          (fun _ => .ok none))
      = .ok [langchain.mkLLMEvent "langchain.PromptLayerOpenAI.async"
              ⟨none, none, some false⟩ [] 0 1 (.vDict []) "p" "hi"] := by
  have h := claim3_sync_async_payloads.1 ⟨none, none, some false⟩ [] ["p"] 0 1
    (.ok ⟨[[⟨"hi", PyVal.vNone⟩]], .vDict [(.vStr "token_usage", .vDict [])]⟩)
    (fun _ => .ok none) (fun _ => .ok none)
    ⟨[[⟨"hi", PyVal.vNone⟩]], .vDict [(.vStr "token_usage", .vDict [])]⟩
    [langchain.mkLLMEvent "langchain.PromptLayerOpenAI" ⟨none, none, some false⟩
      [] 0 1 (.vDict []) "p" "hi"] rfl
  exact h.2

/-- C4 counterexample: with no project configured (the `pl_project` field
left unset) the completion adapter reports an event whose metadata dict
maps `project` to Python `None`, a non-string value, so the claim that
every reported event carries an all-string metadata mapping fails. -/
theorem claim4_counterexample_metadata_not_strings :
    Except.map (fun pr => pr.2.map (fun ev => ev.eventMetadata))
        (langchain.PromptLayerOpenAI_generate ⟨none, none, some false⟩ [] ["p"]
          0 1 (.ok ⟨[[⟨"hi", PyVal.vNone⟩]],
                    .vDict [(.vStr "token_usage", .vDict [])]⟩)
          (fun _ => .ok none))
      = .ok [[("project", PyVal.vNone)]]
    ∧ PyVal.isStr .vNone = false :=
  ⟨rfl, rfl⟩

/-- C4 amended: every event either adapter body reports carries the
metadata dict with the single key `project`; when `pl_project` is set to a
nonempty string the value is that string, so every metadata value is a
string, and when `pl_project` is unset or set to the empty string (both
falsy in Python) the value is Python `None`, a non-string. -/
theorem claim4_adapter_metadata_project :
    (∀ (fname : String) (cfg : PLConfig) (idp : List (String × PyVal))
       (ps : List String) (t0 t1 : Int) (res : langchain.LLMResult)
       (o : CallEvent → Except PyErr (Option String))
       (res2 : langchain.LLMResult) (evs : List CallEvent),
       langchain.llmGenerateCore fname cfg idp ps t0 t1 (.ok res) o
         = .ok (res2, evs) →
       (∀ p : String, p ≠ "" → cfg.pl_project = some p →
         ∀ ev ∈ evs, ev.eventMetadata = [("project", PyVal.vStr p)]
           ∧ ∀ kv ∈ ev.eventMetadata, kv.2.isStr = true)
       ∧ (cfg.pl_project = none ∨ cfg.pl_project = some "" →
         ∀ ev ∈ evs, ev.eventMetadata = [("project", PyVal.vNone)]
           ∧ ∃ kv ∈ ev.eventMetadata, kv.2.isStr = false))
    ∧ (∀ (μ : Type) (fname : String) (cfg : PLConfig)
         (cmd : List μ → Option (List String) → List PyVal × List (String × PyVal))
         (msgs : List μ) (stop : Option (List String)) (t0 t1 : Int)
         (res : langchain.ChatResult μ)
         (o : CallEvent → Except PyErr (Option String))
         (res2 : langchain.ChatResult μ) (evs : List CallEvent),
         langchain.chatGenerateCore fname cfg cmd msgs stop t0 t1 (.ok res) o
           = .ok (res2, evs) →
         (∀ p : String, p ≠ "" → cfg.pl_project = some p →
           ∀ ev ∈ evs, ev.eventMetadata = [("project", PyVal.vStr p)]
             ∧ ∀ kv ∈ ev.eventMetadata, kv.2.isStr = true)
         ∧ (cfg.pl_project = none ∨ cfg.pl_project = some "" →
           ∀ ev ∈ evs, ev.eventMetadata = [("project", PyVal.vNone)]
             ∧ ∃ kv ∈ ev.eventMetadata, kv.2.isStr = false)) := by
  constructor
  · intro fname cfg idp ps t0 t1 res o res2 evs h
    obtain ⟨gens2, hl, hres⟩ := llmGenerateCore_ok_inv fname cfg idp ps t0 t1
      res o res2 evs h
    have hmeta := fun ev hev => (llmLoop_event_fields fname cfg idp t0 t1
      res.llm_output o ps res.generations gens2 evs hl ev hev).2
    constructor
    · intro p hp hproj ev hev
      have := hmeta ev hev
      rw [hproj] at this
      simp only [adapterMetadata, projectMetaValue, hp, if_false] at this
      exact ⟨this, by rw [this]; intro kv hkv; simp at hkv; rw [hkv]; rfl⟩
    · intro hproj ev hev
      have hm := hmeta ev hev
      have heq : ev.eventMetadata = [("project", PyVal.vNone)] := by
        rw [hm]
        rcases hproj with hproj | hproj <;> rw [hproj] <;>
          simp [adapterMetadata, projectMetaValue]
      exact ⟨heq, ("project", PyVal.vNone), by simp [heq], rfl⟩
  · intro μ fname cfg cmd msgs stop t0 t1 res o res2 evs h
    obtain ⟨gens2, hl, hres⟩ := chatGenerateCore_ok_inv fname cfg cmd msgs stop
      t0 t1 res o res2 evs h
    have hmeta := fun ev hev => (chatLoop_event_fields fname cfg cmd stop t0 t1
      (cmd msgs stop).1 res.llm_output o res.generations gens2 evs hl ev hev).2
    constructor
    · intro p hp hproj ev hev
      have := hmeta ev hev
      rw [hproj] at this
      simp only [adapterMetadata, projectMetaValue, hp, if_false] at this
      exact ⟨this, by rw [this]; intro kv hkv; simp at hkv; rw [hkv]; rfl⟩
    · intro hproj ev hev
      have hm := hmeta ev hev
      have heq : ev.eventMetadata = [("project", PyVal.vNone)] := by
        rw [hm]
        rcases hproj with hproj | hproj <;> rw [hproj] <;>
          simp [adapterMetadata, projectMetaValue]
      exact ⟨heq, ("project", PyVal.vNone), by simp [heq], rfl⟩

/-- Witness for the amended C4: a concrete run with a configured nonempty
project reports the project string in the event metadata, and concrete
runs with the project unset and with the project set to the empty string
both report the non-string `None` value. -/
theorem claim4_adapter_metadata_project_witness :
    (langchain.mkLLMEvent "langchain.PromptLayerOpenAI"
        ⟨none, some "proj", some false⟩ [] 0 1 (.vDict []) "p" "hi").eventMetadata
      = [("project", PyVal.vStr "proj")]
    ∧ (langchain.mkLLMEvent "langchain.PromptLayerOpenAI"
        ⟨none, some "", some false⟩ [] 0 1 (.vDict []) "p" "hi").eventMetadata
      = [("project", PyVal.vNone)]
    ∧ (langchain.mkLLMEvent "langchain.PromptLayerOpenAI"
        ⟨none, none, some false⟩ [] 0 1 (.vDict []) "p" "hi").eventMetadata
      = [("project", PyVal.vNone)] := by
  refine ⟨?_, ?_, ?_⟩
  · have h := claim4_adapter_metadata_project.1
      "langchain.PromptLayerOpenAI" ⟨none, some "proj", some false⟩ [] ["p"] 0 1
      ⟨[[⟨"hi", PyVal.vNone⟩]], .vDict [(.vStr "token_usage", .vDict [])]⟩
      (fun _ => .ok none)
      ⟨[[⟨"hi", PyVal.vNone⟩]], .vDict [(.vStr "token_usage", .vDict [])]⟩
      [langchain.mkLLMEvent "langchain.PromptLayerOpenAI"
        ⟨none, some "proj", some false⟩ [] 0 1 (.vDict []) "p" "hi"] rfl
    exact ((h.1 "proj" (by decide) rfl) _ (by simp)).1
  · have h := claim4_adapter_metadata_project.1
      "langchain.PromptLayerOpenAI" ⟨none, some "", some false⟩ [] ["p"] 0 1
      ⟨[[⟨"hi", PyVal.vNone⟩]], .vDict [(.vStr "token_usage", .vDict [])]⟩
      (fun _ => .ok none)
      ⟨[[⟨"hi", PyVal.vNone⟩]], .vDict [(.vStr "token_usage", .vDict [])]⟩
      [langchain.mkLLMEvent "langchain.PromptLayerOpenAI"
        ⟨none, some "", some false⟩ [] 0 1 (.vDict []) "p" "hi"] rfl
    exact ((h.2 (Or.inr rfl)) _ (by simp)).1
  · have h := claim4_adapter_metadata_project.1
      "langchain.PromptLayerOpenAI" ⟨none, none, some false⟩ [] ["p"] 0 1
      ⟨[[⟨"hi", PyVal.vNone⟩]], .vDict [(.vStr "token_usage", .vDict [])]⟩
      (fun _ => .ok none)
      ⟨[[⟨"hi", PyVal.vNone⟩]], .vDict [(.vStr "token_usage", .vDict [])]⟩
      [langchain.mkLLMEvent "langchain.PromptLayerOpenAI"
        ⟨none, none, some false⟩ [] 0 1 (.vDict []) "p" "hi"] rfl
    exact ((h.2 (Or.inl rfl)) _ (by simp)).1

/-- C8 counterexample: with the request id return enabled, one prompt and
two generations for it, the completion adapter stamps `pl_request_id` only
into the first generation; the second keeps its original `None` info, so
the claim that each generation is extended fails. -/
theorem claim8_counterexample_second_generation_unstamped :
    Except.map
        (fun pr => pr.1.generations.map (fun gl => gl.map
          (fun g => g.generation_info)))
        (langchain.PromptLayerOpenAI_generate ⟨none, none, some true⟩ [] ["p"]
          0 1 (.ok ⟨[[⟨"a", PyVal.vNone⟩, ⟨"b", PyVal.vNone⟩]],
                    .vDict [(.vStr "token_usage", .vDict [])]⟩)
          (fun _ => .ok (some "rid")))
      = .ok [[.vDict [(.vStr "pl_request_id", .vStr "rid")], PyVal.vNone]]
    ∧ infoPlId PyVal.vNone = none :=
  ⟨rfl, rfl⟩

/-- C8 amended: with a truthy `return_pl_id` the chat adapter stamps the
reporter answer into the generation info of every generation, while the
completion adapter stamps it only into the first generation of each
prompt, leaving the other generations of a prompt and any generation lists
beyond the prompts untouched; the rest of the result (`llm_output`, texts,
messages) is unmodified, a stamped info always holds the id under the key
`pl_request_id`, and with a falsy `return_pl_id` the underlying result is
returned entirely unchanged. -/
theorem claim8_request_id_stamping :
    (∀ (fname : String) (cfg : PLConfig) (idp : List (String × PyVal))
       (ps : List String) (t0 t1 : Int) (res : langchain.LLMResult)
       (o : CallEvent → Except PyErr (Option String))
       (res2 : langchain.LLMResult) (evs : List CallEvent),
       truthyFlag cfg.return_pl_id = true →
       langchain.llmGenerateCore fname cfg idp ps t0 t1 (.ok res) o
         = .ok (res2, evs) →
       res2.llm_output = res.llm_output
       ∧ List.Forall₂
           (fun (pr : List langchain.Generation × CallEvent) gl2 =>
             ∃ g gt, pr.1 = g :: gt ∧
               gl2 = { g with
                       generation_info :=
                         stampInfo g.generation_info
                           (plIdVal (reporterRun o pr.2)) } :: gt)
           ((res.generations.take ps.length).zip evs)
           (res2.generations.take ps.length)
       ∧ res2.generations.drop ps.length = res.generations.drop ps.length)
    ∧ (∀ (μ : Type) (fname : String) (cfg : PLConfig)
         (cmd : List μ → Option (List String) → List PyVal × List (String × PyVal))
         (msgs : List μ) (stop : Option (List String)) (t0 t1 : Int)
         (res : langchain.ChatResult μ)
         (o : CallEvent → Except PyErr (Option String))
         (res2 : langchain.ChatResult μ) (evs : List CallEvent),
         truthyFlag cfg.return_pl_id = true →
         langchain.chatGenerateCore fname cfg cmd msgs stop t0 t1 (.ok res) o
           = .ok (res2, evs) →
         res2.llm_output = res.llm_output
         ∧ List.Forall₂
             (fun (pr : langchain.ChatGeneration μ × CallEvent) g2 =>
               g2 = { pr.1 with
                      generation_info :=
                        stampInfo pr.1.generation_info
                          (plIdVal (reporterRun o pr.2)) })
             (res.generations.zip evs) res2.generations
         ∧ evs.length = res.generations.length)
    ∧ (∀ (fname : String) (cfg : PLConfig) (idp : List (String × PyVal))
         (ps : List String) (t0 t1 : Int) (res : langchain.LLMResult)
         (o : CallEvent → Except PyErr (Option String))
         (res2 : langchain.LLMResult) (evs : List CallEvent),
         truthyFlag cfg.return_pl_id = false →
         langchain.llmGenerateCore fname cfg idp ps t0 t1 (.ok res) o
           = .ok (res2, evs) → res2 = res)
    ∧ (∀ (μ : Type) (fname : String) (cfg : PLConfig)
         (cmd : List μ → Option (List String) → List PyVal × List (String × PyVal))
         (msgs : List μ) (stop : Option (List String)) (t0 t1 : Int)
         (res : langchain.ChatResult μ)
         (o : CallEvent → Except PyErr (Option String))
         (res2 : langchain.ChatResult μ) (evs : List CallEvent),
         truthyFlag cfg.return_pl_id = false →
         langchain.chatGenerateCore fname cfg cmd msgs stop t0 t1 (.ok res) o
           = .ok (res2, evs) → res2 = res)
    ∧ (∀ info plv : PyVal, infoPlId (stampInfo info plv) = some plv) := by
  refine ⟨?_, ?_, ?_, ?_, infoPlId_stampInfo⟩
  · intro fname cfg idp ps t0 t1 res o res2 evs hfl h
    obtain ⟨gens2, hl, hres⟩ := llmGenerateCore_ok_inv fname cfg idp ps t0 t1
      res o res2 evs h
    obtain ⟨hf, hd⟩ := llmLoop_stamp fname cfg idp t0 t1 res.llm_output o hfl
      ps res.generations gens2 evs hl
    rw [hres]
    exact ⟨rfl, hf, hd⟩
  · intro μ fname cfg cmd msgs stop t0 t1 res o res2 evs hfl h
    obtain ⟨gens2, hl, hres⟩ := chatGenerateCore_ok_inv fname cfg cmd msgs stop
      t0 t1 res o res2 evs h
    obtain ⟨hf, hlen⟩ := chatLoop_stamp fname cfg cmd stop t0 t1
      (cmd msgs stop).1 res.llm_output o hfl res.generations gens2 evs hl
    rw [hres]
    exact ⟨rfl, hf, hlen⟩
  · intro fname cfg idp ps t0 t1 res o res2 evs hfl h
    obtain ⟨gens2, hl, hres⟩ := llmGenerateCore_ok_inv fname cfg idp ps t0 t1
      res o res2 evs h
    obtain ⟨heq, hfst⟩ := llmLoop_no_stamp fname cfg idp t0 t1 res.llm_output
      o o hfl ps res.generations
    rw [hl] at hfst
    have hg : gens2 = res.generations := by simpa [Except.map] using hfst
    rw [hres, hg]
  · intro μ fname cfg cmd msgs stop t0 t1 res o res2 evs hfl h
    obtain ⟨gens2, hl, hres⟩ := chatGenerateCore_ok_inv fname cfg cmd msgs stop
      t0 t1 res o res2 evs h
    obtain ⟨heq, hfst⟩ := chatLoop_no_stamp fname cfg cmd stop t0 t1
      (cmd msgs stop).1 res.llm_output o o hfl res.generations
    rw [hl] at hfst
    have hg : gens2 = res.generations := by simpa [Except.map] using hfst
    rw [hres, hg]

/-- Witness for the amended C8 at a concrete run: the generation list of
the second prompt position (beyond the single prompt) is untouched. -/
theorem claim8_request_id_stamping_witness :
    ([[⟨"a", PyVal.vDict [(.vStr "pl_request_id", .vStr "rid")]⟩],
      [⟨"b", PyVal.vNone⟩]] : List (List langchain.Generation)).drop 1
      = ([[⟨"a", PyVal.vNone⟩], [⟨"b", PyVal.vNone⟩]]
          : List (List langchain.Generation)).drop 1 := by
  have h := claim8_request_id_stamping.1 "langchain.PromptLayerOpenAI"
    ⟨none, none, some true⟩ [] ["p"] 0 1
    ⟨[[⟨"a", PyVal.vNone⟩], [⟨"b", PyVal.vNone⟩]],
     .vDict [(.vStr "token_usage", .vDict [])]⟩
    (fun _ => .ok (some "rid"))
    ⟨[[⟨"a", PyVal.vDict [(.vStr "pl_request_id", .vStr "rid")]⟩],
      [⟨"b", PyVal.vNone⟩]],
     .vDict [(.vStr "token_usage", .vDict [])]⟩
    [langchain.mkLLMEvent "langchain.PromptLayerOpenAI"
      ⟨none, none, some true⟩ [] 0 1 (.vDict []) "p" "a"]
    rfl rfl
  exact h.2.2

/-- Witness for C1: a concrete wrapped call observed under a raising
reporter oracle and under a succeeding one, and a concrete adapter run
that hands back the underlying result unchanged. -/
theorem claim1_wrapped_result_transparent_witness :
    proxyCall "openai.Completion.create" none
        (fun _ : PyVal => (.ok (.vStr "out") : Except PyErr PyVal)) id id 0 1
        (fun _ => .error (.exception "reporter down")) (.vStr "in")
      = proxyCall "openai.Completion.create" none
          (fun _ : PyVal => (.ok (.vStr "out") : Except PyErr PyVal)) id id 0 1
          (fun _ => .ok (some "id")) (.vStr "in")
    ∧ ({ generations := [[⟨"hi", PyVal.vNone⟩]],
         llm_output := PyVal.vDict [(.vStr "token_usage", .vDict [])] }
        : langchain.LLMResult)
      = { generations := [[⟨"hi", PyVal.vNone⟩]],
          llm_output := PyVal.vDict [(.vStr "token_usage", .vDict [])] } := by
  constructor
  · exact claim1_wrapped_result_transparent.1 PyVal PyVal
      "openai.Completion.create" none (fun _ => .ok (.vStr "out")) id id 0 1
      (fun _ => .error (.exception "reporter down")) (fun _ => .ok (some "id"))
      (.vStr "in")
  · exact ((claim1_wrapped_result_transparent.2.2.1 "langchain.PromptLayerOpenAI"
      ⟨none, none, some false⟩ [] ["p"] 0 1
      ⟨[[⟨"hi", PyVal.vNone⟩]], PyVal.vDict [(.vStr "token_usage", .vDict [])]⟩
      (fun _ => .ok none) (fun _ => .ok none) rfl).2
      ⟨[[⟨"hi", PyVal.vNone⟩]], PyVal.vDict [(.vStr "token_usage", .vDict [])]⟩
      [langchain.mkLLMEvent "langchain.PromptLayerOpenAI"
        ⟨none, none, some false⟩ [] 0 1 (.vDict []) "p" "hi"] rfl)

/-- C5: for every request id, `track.score` raises for a score of -1 or
101, and for any int outside the inclusive range 0 to 100 or any
non-integer value, and proceeds to the remote call for 0 and 100: the
range bounds are inclusive. -/
theorem claim5_score_bounds_inclusive (rid : PyVal) :
    track.score rid (.vInt (-1)) = .error "Please provide a score between 0 and 100."
    ∧ track.score rid (.vInt 101) = .error "Please provide a score between 0 and 100."
    ∧ track.score rid (.vInt 0) = .ok ⟨"promptlayer_track_score", [rid, .vInt 0]⟩
    ∧ track.score rid (.vInt 100) = .ok ⟨"promptlayer_track_score", [rid, .vInt 100]⟩
    ∧ (∀ n : Int, n < 0 ∨ 100 < n →
        track.score rid (.vInt n) = .error "Please provide a score between 0 and 100.")
    ∧ (∀ v : PyVal, v.isInt = false →
        track.score rid v = .error "Please provide a int score.") := by
  refine ⟨rfl, rfl, rfl, rfl, ?_, ?_⟩
  · intro n h
    simp only [track.score, PyVal.isInt, PyVal.toInt]
    rcases h with h | h <;> simp [h]
  · intro v hv
    simp [track.score, hv]

/-- Witness for C5 at concrete inputs. -/
theorem claim5_score_bounds_inclusive_witness :
    track.score (.vStr "id") (.vInt 250) = .error "Please provide a score between 0 and 100."
    ∧ track.score (.vStr "id") (.vStr "ten") = .error "Please provide a int score." :=
  ⟨(claim5_score_bounds_inclusive (.vStr "id")).2.2.2.2.1 250 (by decide),
   (claim5_score_bounds_inclusive (.vStr "id")).2.2.2.2.2 (.vStr "ten") rfl⟩

/-- C6: for every request id, `track.metadata` raises when the argument is
not a dict or when some key or value is not a string (for example the dict
mapping the string a to the int 1), and proceeds to the remote call when
every key and value is a string. -/
theorem claim6_metadata_validation (rid : PyVal) :
    track.metadata rid (.vDict [(.vStr "a", .vInt 1)])
      = .error "Please provide a dictionary of metadata with key value pair of strings."
    ∧ track.metadata rid (.vDict [(.vStr "a", .vStr "1")])
      = .ok ⟨"promptlayer_track_metadata", [rid, .vDict [(.vStr "a", .vStr "1")]]⟩
    ∧ (∀ v : PyVal, v.isDict = false →
        track.metadata rid v = .error "Please provide a dictionary of metadata.")
    ∧ (∀ entries : List (PyVal × PyVal), ∀ kv ∈ entries,
        kv.1.isStr = false ∨ kv.2.isStr = false →
        track.metadata rid (.vDict entries)
          = .error "Please provide a dictionary of metadata with key value pair of strings.")
    ∧ (∀ entries : List (PyVal × PyVal),
        entries.all (fun kv => kv.1.isStr && kv.2.isStr) = true →
        track.metadata rid (.vDict entries)
          = .ok ⟨"promptlayer_track_metadata", [rid, .vDict entries]⟩) := by
  refine ⟨rfl, rfl, ?_, ?_, ?_⟩
  · intro v hv
    cases v <;> simp_all [track.metadata, PyVal.isDict]
  · intro entries kv hmem hbad
    have hall : entries.all (fun kv => kv.1.isStr && kv.2.isStr) = false := by
      simp only [List.all_eq_false]
      refine ⟨kv, hmem, ?_⟩
      rcases hbad with h | h <;> simp [h]
    simp [track.metadata, hall]
  · intro entries hall
    simp [track.metadata, hall]

/-- Witness for C6 at concrete inputs. -/
theorem claim6_metadata_validation_witness :
    track.metadata (.vStr "id") (.vInt 7) = .error "Please provide a dictionary of metadata."
    ∧ track.metadata (.vStr "id") (.vDict [(.vInt 3, .vStr "x")])
      = .error "Please provide a dictionary of metadata with key value pair of strings."
    ∧ track.metadata (.vStr "id") (.vDict [(.vStr "k", .vStr "v")])
      = .ok ⟨"promptlayer_track_metadata", [.vStr "id", .vDict [(.vStr "k", .vStr "v")]]⟩ :=
  ⟨(claim6_metadata_validation (.vStr "id")).2.2.1 (.vInt 7) rfl,
   (claim6_metadata_validation (.vStr "id")).2.2.2.1 [(.vInt 3, .vStr "x")]
     (.vInt 3, .vStr "x") (by simp) (Or.inl rfl),
   (claim6_metadata_validation (.vStr "id")).2.2.2.2 [(.vStr "k", .vStr "v")] rfl⟩

/-- C7: `prompts.publish_prompt` proceeds to the remote call when the
template is a plain dict or a langchain `PromptTemplate`, and raises for
any other value, for example the int 42 or the default `None`, before any
remote call. -/
theorem claim7_publish_template_validation (name : String) (tags : List String) :
    prompts.publish_prompt name tags (.pyval (.vInt 42))
      = .error "Please provide either a JSON prompt template or a langchain prompt template."
    ∧ prompts.publish_prompt name tags (.pyval .vNone)
      = .error "Please provide either a JSON prompt template or a langchain prompt template."
    ∧ (∀ d : List (PyVal × PyVal),
        prompts.publish_prompt name tags (.pyval (.vDict d))
          = .ok ⟨"promptlayer_publish_prompt",
                 [.vStr name, .vDict d, .vList (tags.map .vStr)]⟩)
    ∧ (∀ fields : List (PyVal × PyVal),
        prompts.publish_prompt name tags (.lcTemplate fields)
          = .ok ⟨"promptlayer_publish_prompt",
                 [.vStr name, .vDict fields, .vList (tags.map .vStr)]⟩)
    ∧ (∀ v : PyVal, v.isDict = false →
        prompts.publish_prompt name tags (.pyval v)
          = .error "Please provide either a JSON prompt template or a langchain prompt template.") := by
  refine ⟨rfl, rfl, fun d => rfl, fun fields => rfl, ?_⟩
  intro v hv
  cases v <;> simp_all [prompts.publish_prompt, PyVal.isDict]

/-- Witness for C7 at concrete inputs. -/
theorem claim7_publish_template_validation_witness :
    prompts.publish_prompt "x" [] (.pyval (.vList []))
      = .error "Please provide either a JSON prompt template or a langchain prompt template." :=
  (claim7_publish_template_validation "x" []).2.2.2.2 (.vList []) rfl

/-- C10: `prompts.get_prompt` with `langchain = true` hands the fetched
template dict to the framework loader after defaulting a missing `_type`
key to the string `prompt` (a present `_type` key is left alone), and with
`langchain = false` returns the fetched template untouched. -/
theorem claim10_get_prompt_type_default (entries : List (PyVal × PyVal))
    (pt : PyVal) (hpt : dictLookup entries "prompt_template" = some pt) :
    prompts.get_prompt (.vDict entries) false = .ok (.raw pt)
    ∧ (∀ ptEntries : List (PyVal × PyVal), pt = .vDict ptEntries →
        (dictHasKey ptEntries "_type" = false →
          prompts.get_prompt (.vDict entries) true
            = .ok (.loaded (dictSet ptEntries "_type" (.vStr "prompt")))
          ∧ dictLookup (dictSet ptEntries "_type" (.vStr "prompt")) "_type"
              = some (.vStr "prompt"))
        ∧ (dictHasKey ptEntries "_type" = true →
          prompts.get_prompt (.vDict entries) true = .ok (.loaded ptEntries))) := by
  constructor
  · simp [prompts.get_prompt, hpt]
  · intro ptEntries hpe
    subst hpe
    constructor
    · intro habs
      exact ⟨by simp [prompts.get_prompt, hpt, habs],
             dictLookup_dictSet_self ptEntries "_type" (.vStr "prompt")⟩
    · intro hhas
      simp [prompts.get_prompt, hpt, hhas]

/-- Witness for C10 at concrete inputs: a fetched template without `_type`
and one with it. -/
theorem claim10_get_prompt_type_default_witness :
    prompts.get_prompt
        (.vDict [(.vStr "prompt_template", .vDict [(.vStr "template", .vStr "hi")])]) true
      = .ok (.loaded [(.vStr "template", .vStr "hi"), (.vStr "_type", .vStr "prompt")])
    ∧ prompts.get_prompt
        (.vDict [(.vStr "prompt_template", .vDict [(.vStr "_type", .vStr "chat")])]) true
      = .ok (.loaded [(.vStr "_type", .vStr "chat")])
    ∧ prompts.get_prompt
        (.vDict [(.vStr "prompt_template", .vDict [(.vStr "template", .vStr "hi")])]) false
      = .ok (.raw (.vDict [(.vStr "template", .vStr "hi")])) :=
  ⟨(((claim10_get_prompt_type_default
        [(.vStr "prompt_template", .vDict [(.vStr "template", .vStr "hi")])]
        (.vDict [(.vStr "template", .vStr "hi")]) rfl).2
        [(.vStr "template", .vStr "hi")] rfl).1 rfl).1,
   ((claim10_get_prompt_type_default
        [(.vStr "prompt_template", .vDict [(.vStr "_type", .vStr "chat")])]
        (.vDict [(.vStr "_type", .vStr "chat")]) rfl).2
        [(.vStr "_type", .vStr "chat")] rfl).2 rfl,
   (claim10_get_prompt_type_default
        [(.vStr "prompt_template", .vDict [(.vStr "template", .vStr "hi")])]
        (.vDict [(.vStr "template", .vStr "hi")]) rfl).1⟩

/-- C2 counterexample: the claim states that `track.prompt` validates its
input shape locally and rejects malformed input with a local validation
error before contacting the remote service; in the source its validation
is commented out (and the commented check even names a parameter,
`prompt_input_variables`, that the function does not have), so arbitrarily
malformed inputs, a `None` request id, template id and version, or a dict
in place of the template id, are forwarded straight to the remote helper:
the call succeeds and no error is raised. -/
theorem claim2_counterexample_prompt_no_validation :
    track.prompt .vNone .vNone .vNone
      = .ok ⟨"promptlayer_track_prompt", [.vNone, .vNone, .vNone]⟩
    ∧ (track.prompt .vNone .vNone .vNone).isOk = true
    ∧ track.prompt (.vStr "id") (.vDict []) (.vBool true)
      = .ok ⟨"promptlayer_track_prompt", [.vStr "id", .vDict [], .vBool true]⟩ :=
  ⟨rfl, rfl, rfl⟩

/-- C2 amended: `track.metadata` and `track.score` validate their input
shape locally, raise before any remote call on malformed input, and
forward valid input to the remote service; `track.prompt` performs no
local validation (the check in the source is commented out) and forwards
every input, well formed or not, to the remote service, never raising. -/
theorem claim2_track_validation (rid : PyVal) :
    (∀ v : PyVal, v.isDict = false →
        track.metadata rid v = .error "Please provide a dictionary of metadata.")
    ∧ (∀ entries : List (PyVal × PyVal), ∀ kv ∈ entries,
        kv.1.isStr = false ∨ kv.2.isStr = false →
        track.metadata rid (.vDict entries)
          = .error "Please provide a dictionary of metadata with key value pair of strings.")
    ∧ (∀ entries : List (PyVal × PyVal),
        entries.all (fun kv => kv.1.isStr && kv.2.isStr) = true →
        track.metadata rid (.vDict entries)
          = .ok ⟨"promptlayer_track_metadata", [rid, .vDict entries]⟩)
    ∧ (∀ v : PyVal, v.isInt = false →
        track.score rid v = .error "Please provide a int score.")
    ∧ (∀ n : Int, n < 0 ∨ 100 < n →
        track.score rid (.vInt n) = .error "Please provide a score between 0 and 100.")
    ∧ (∀ n : Int, 0 ≤ n → n ≤ 100 →
        track.score rid (.vInt n) = .ok ⟨"promptlayer_track_score", [rid, .vInt n]⟩)
    ∧ (∀ tid ver : PyVal,
        track.prompt rid tid ver = .ok ⟨"promptlayer_track_prompt", [rid, tid, ver]⟩) := by
  refine ⟨?_, ?_, ?_, ?_, ?_, ?_, fun tid ver => rfl⟩
  · intro v hv
    cases v <;> simp_all [track.metadata, PyVal.isDict]
  · intro entries kv hmem hbad
    have hall : entries.all (fun kv => kv.1.isStr && kv.2.isStr) = false := by
      simp only [List.all_eq_false]
      refine ⟨kv, hmem, ?_⟩
      rcases hbad with h | h <;> simp [h]
    simp [track.metadata, hall]
  · intro entries hall
    simp [track.metadata, hall]
  · intro v hv
    simp [track.score, hv]
  · intro n h
    simp only [track.score, PyVal.isInt, PyVal.toInt]
    rcases h with h | h <;> simp [h]
  · intro n h0 h1
    have hrange : ¬ ((n : Int) < 0 ∨ n > 100) := by omega
    simp [track.score, PyVal.isInt, PyVal.toInt, hrange]

/-- Witness for the amended C2 at concrete inputs: both failing shapes,
both successful forwardings, and the unvalidated prompt forwarding. -/
theorem claim2_track_validation_witness :
    track.metadata (.vStr "id") .vNone = .error "Please provide a dictionary of metadata."
    ∧ track.metadata (.vStr "id") (.vDict [(.vStr "k", .vStr "v")])
      = .ok ⟨"promptlayer_track_metadata", [.vStr "id", .vDict [(.vStr "k", .vStr "v")]]⟩
    ∧ track.score (.vStr "id") .vNone = .error "Please provide a int score."
    ∧ track.score (.vStr "id") (.vInt 7)
      = .ok ⟨"promptlayer_track_score", [.vStr "id", .vInt 7]⟩
    ∧ track.prompt (.vStr "id") (.vInt 5) .vNone
      = .ok ⟨"promptlayer_track_prompt", [.vStr "id", .vInt 5, .vNone]⟩ :=
  ⟨(claim2_track_validation (.vStr "id")).1 .vNone rfl,
   (claim2_track_validation (.vStr "id")).2.2.1 [(.vStr "k", .vStr "v")] rfl,
   (claim2_track_validation (.vStr "id")).2.2.2.1 .vNone rfl,
   (claim2_track_validation (.vStr "id")).2.2.2.2.2.1 7 (by decide) (by decide),
   (claim2_track_validation (.vStr "id")).2.2.2.2.2.2 (.vInt 5) .vNone⟩

end PromptLayer
